import Mathlib

/-!
Verification development for the `fastapi-users-firebase` adapter.

The Python sources under `src/fastapi_users_firebase/` are shallowly embedded:
pure attribute projections become Lean functions, the Firebase Admin client is
an explicit record of provider functions, exceptions become an `Except` error
channel, and every store / strategy operation additionally returns the list of
provider calls it performed (the source dispatches each provider call through
a worker thread; that dispatch is modelled as a direct call, and the trace
records exactly the calls made).
-/

/-- An opaque handle standing for a `firebase_admin.App` instance. -/
def App : Type := Nat

/-- A Python value as it appears in the provider-bound keyword mappings built
by `FirebaseUserDatabase._get_create_update_dict`.  Claim payload values and
custom-claim values are never inspected by the embedded code, so dictionary
values are modelled as strings. -/
inductive PyValue where
  | none
  | bool (b : Bool)
  | str (s : String)
  | dictStr (entries : List (String × String))
  deriving DecidableEq, Repr

/-- The Python exceptions that the embedded code raises, catches or passes
through.  `httpException` carries the HTTP status, the detail message and the
`__cause__` installed by `raise ... from exc`. -/
inductive PyExc where
  | userNotFound (msg : String)
  | typeError (msg : String)
  | validationError (msg : String)
  | keyError (key : String)
  | invalidIdToken (msg : String)
  | expiredIdToken (msg : String)
  | revokedIdToken (msg : String)
  | httpException (status : Nat) (detail : String) (cause : Option PyExc)
  | otherError (msg : String)
  deriving Repr

/-- `str(exc)`: the message a provider exception renders to. -/
def excStr : PyExc → String
  | .userNotFound m => m
  | .typeError m => m
  | .validationError m => m
  | .keyError k => k
  | .invalidIdToken m => m
  | .expiredIdToken m => m
  | .revokedIdToken m => m
  | .httpException _ d _ => d
  | .otherError m => m

/-- `except auth.UserNotFoundError` membership test. -/
def isUserNotFound : PyExc → Bool
  | .userNotFound _ => true
  | _ => false

/-- `except (auth.RevokedIdTokenError, auth.ExpiredIdTokenError)` membership
test. -/
def isRevokedOrExpired : PyExc → Bool
  | .revokedIdToken _ => true
  | .expiredIdToken _ => true
  | _ => false

/-- `except auth.InvalidIdTokenError` membership test.  In `firebase_admin`,
`ExpiredIdTokenError` and `RevokedIdTokenError` are subclasses of
`InvalidIdTokenError`, so all three match this clause. -/
def isInvalidIdTokenExc : PyExc → Bool
  | .invalidIdToken _ => true
  | .expiredIdToken _ => true
  | .revokedIdToken _ => true
  | _ => false

/-- Python `str(...)` applied to a value that is already a string. -/
def strPy (s : String) : String := s

/-- Python truthiness `bool(x)` of an optional string: `None` and the empty
string are falsy. -/
def pyTruthy : Option String → Bool
  | Option.none => false
  | some s => !(s == "")

/-- Python `x or ""` on an optional string. -/
def pyOrEmpty : Option String → String
  | Option.none => ""
  | some s => s

/-- Python `not x` on an optional bool (`not None` is `True`). -/
def pyNot : Option Bool → Bool
  | Option.none => true
  | some b => !b

/-- Embed an optional string as a Python value (`None` or `str`). -/
def pyOptStr : Option String → PyValue
  | Option.none => PyValue.none
  | some s => PyValue.str s

/-- Embed an optional bool as a Python value (`None` or `bool`). -/
def pyOptBool : Option Bool → PyValue
  | Option.none => PyValue.none
  | some b => PyValue.bool b

/-- Embed an optional dictionary as a Python value (`None` or `dict`). -/
def pyOptDict : Option (List (String × String)) → PyValue
  | Option.none => PyValue.none
  | some d => PyValue.dictStr d

/-- Python `data[key]` on a string-valued dict: the value, or a `KeyError`. -/
def dictGet (d : List (String × String)) (k : String) : Except PyExc String :=
  match d.find? (fun kv => kv.1 == k) with
  | some kv => Except.ok kv.2
  | Option.none => Except.error (PyExc.keyError k)

/-- `firebase_admin.auth.UserRecord`: the provider's canonical user record, as
read by `fastapi_users_firebase.user.FirebaseUser`. -/
structure UserRecord where
  uid : String
  email : Option String
  email_verified : Bool
  disabled : Bool
  phone_number : Option String
  display_name : Option String
  photo_url : Option String
  deriving DecidableEq, Repr

/-- `fastapi_users_firebase.user.FirebaseUser`: the wrapped provider record,
the app handle and the superuser predicate stored by `__init__` (a missing
predicate is replaced there by the constant-false function). -/
structure FirebaseUser where
  _user : UserRecord
  _app : Option App
  _is_superuser : UserRecord → Bool

/-- Modelled from the spec: `FirebaseUser.from_record` is called by the
store's `_map_user` but is not defined in the available sources (only its
caller is); per the spec an Entity is constructed only by mapping a provider
record together with the store's app handle and optional superuser predicate,
which is exactly the `FirebaseUser.__init__` signature. -/
def FirebaseUser.from_record (user : UserRecord) (app : Option App)
    (is_superuser_func : Option (UserRecord → Bool)) : FirebaseUser :=
  ⟨user, app, is_superuser_func.getD (fun _ => false)⟩

/-- `FirebaseUser.id`: `UID(str(self._user.uid))`. -/
def FirebaseUser.id (u : FirebaseUser) : String := strPy u._user.uid

/-- `FirebaseUser.email`: `self._user.email or ""`. -/
def FirebaseUser.email (u : FirebaseUser) : String := pyOrEmpty u._user.email

/-- `FirebaseUser.hashed_password`: always the empty string. -/
def FirebaseUser.hashed_password (_u : FirebaseUser) : String := ""

/-- `FirebaseUser.is_active`: `not self._user.disabled`. -/
def FirebaseUser.is_active (u : FirebaseUser) : Bool := !u._user.disabled

/-- `FirebaseUser.is_superuser`: `self._is_superuser(self._user)`. -/
def FirebaseUser.is_superuser (u : FirebaseUser) : Bool := u._is_superuser u._user

/-- `FirebaseUser.is_verified`:
`bool(user.email_verified) or bool(user.phone_number)`. -/
def FirebaseUser.is_verified (u : FirebaseUser) : Bool :=
  u._user.email_verified || pyTruthy u._user.phone_number

/-- `FirebaseUser.name`: `self._user.display_name`. -/
def FirebaseUser.name (u : FirebaseUser) : Option String := u._user.display_name

/-- `FirebaseUser.phone_number`: `self._user.phone_number`. -/
def FirebaseUser.phone_number (u : FirebaseUser) : Option String := u._user.phone_number

/-- The surface of the `firebase_admin.auth` module consumed by the adapter:
each field is one remote call, returning a result or raising. -/
structure FirebaseAuthProvider where
  get_user : String → Option App → Except PyExc UserRecord
  get_user_by_email : String → Option App → Except PyExc UserRecord
  create_user : Option App → List (String × PyValue) → Except PyExc UserRecord
  update_user : String → Option App → List (String × PyValue) → Except PyExc UserRecord
  delete_user : String → Except PyExc Unit
  verify_id_token : String → Option App → Bool → Except PyExc (List (String × String))

/-- One provider call as recorded in an operation's trace. -/
inductive ProviderCall where
  | getUser (id : String) (app : Option App)
  | getUserByEmail (email : String) (app : Option App)
  | createUser (app : Option App) (fields : List (String × PyValue))
  | updateUser (uid : String) (app : Option App) (fields : List (String × PyValue))
  | deleteUser (uid : String)
  | verifyIdToken (token : String) (app : Option App) (checkRevoked : Bool)

/-- A Python argument handed to `FirebaseUserDatabase.delete`: either a real
`FirebaseUser`, or any other object carrying only its `repr` string (the
`isinstance` check distinguishes exactly these two cases). -/
inductive PyObject where
  | firebaseUser (u : FirebaseUser)
  | other (r : String)

/-- `fastapi_users_firebase.user_database.FirebaseUserDatabase`: the app and
the optional superuser predicate stored by `__init__`. -/
structure FirebaseUserDatabase where
  _app : Option App
  _is_superuser : Option (UserRecord → Bool)

/-- `FirebaseUserDatabase._map_user`:
`FirebaseUser.from_record(user, self._app, self._is_superuser)`. -/
def FirebaseUserDatabase._map_user (db : FirebaseUserDatabase) (user : UserRecord) :
    FirebaseUser :=
  FirebaseUser.from_record user db._app db._is_superuser

/-- `FirebaseUserDatabase.get`: call `auth.get_user(id, app)`, return `None`
on `UserNotFoundError`, otherwise wrap the record. -/
def FirebaseUserDatabase.get (db : FirebaseUserDatabase) (auth : FirebaseAuthProvider)
    (id : String) : Except PyExc (Option FirebaseUser) × List ProviderCall :=
  match auth.get_user id db._app with
  | Except.error e =>
    if isUserNotFound e then (Except.ok Option.none, [ProviderCall.getUser id db._app])
    else (Except.error e, [ProviderCall.getUser id db._app])
  | Except.ok user =>
    (Except.ok (some (db._map_user user)), [ProviderCall.getUser id db._app])

/-- `FirebaseUserDatabase.get_by_email`: call `auth.get_user_by_email`, return
`None` on `UserNotFoundError`, otherwise wrap the record. -/
def FirebaseUserDatabase.get_by_email (db : FirebaseUserDatabase)
    (auth : FirebaseAuthProvider) (email : String) :
    Except PyExc (Option FirebaseUser) × List ProviderCall :=
  match auth.get_user_by_email email db._app with
  | Except.error e =>
    if isUserNotFound e then (Except.ok Option.none, [ProviderCall.getUserByEmail email db._app])
    else (Except.error e, [ProviderCall.getUserByEmail email db._app])
  | Except.ok user =>
    (Except.ok (some (db._map_user user)), [ProviderCall.getUserByEmail email db._app])

/-- `FirebaseUserDatabase.delete`: raise `TypeError` unless the argument is a
`FirebaseUser`, otherwise call `auth.delete_user(user.id)`. -/
def FirebaseUserDatabase.delete (_db : FirebaseUserDatabase) (auth : FirebaseAuthProvider)
    (user : PyObject) : Except PyExc Unit × List ProviderCall :=
  match user with
  | PyObject.other r =>
    (Except.error (PyExc.typeError ("Object " ++ r ++ " is not a valid user object.")), [])
  | PyObject.firebaseUser u =>
    (auth.delete_user u.id, [ProviderCall.deleteUser u.id])

/-- `fastapi_users_firebase.schemas.CreateFirebaseUserModel` after validation.
Field optionality of the framework base (`BaseUserCreate`) is modelled from
the spec: the exposed field set is
email, password, display_name, photo_url, phone_number, custom_claims,
is_active, is_verified (plus is_superuser), "with creation requiring
email-or-phone"; the repository's own `schemas.py` adds `phone_number`,
`display_name`, `custom_claims` (defaulting to `None`) and `photo_url`
declared `Optional[HttpUrl]` with no default, hence required but nullable. -/
structure CreateFirebaseUserModel where
  email : Option String
  password : Option String
  is_active : Option Bool
  is_superuser : Option Bool
  is_verified : Option Bool
  phone_number : Option String
  display_name : Option String
  photo_url : Option String
  custom_claims : Option (List (String × String))
  deriving DecidableEq, Repr

/-- `fastapi_users_firebase.schemas.UpdateFirebaseUserModel` after validation.
All framework base fields (`BaseUserUpdate`) default to `None`; the fields
added in `schemas.py` behave as in the creation model, `photo_url` again
having no default. -/
structure UpdateFirebaseUserModel where
  email : Option String
  password : Option String
  is_active : Option Bool
  is_superuser : Option Bool
  is_verified : Option Bool
  phone_number : Option String
  display_name : Option String
  photo_url : Option String
  custom_claims : Option (List (String × String))
  deriving DecidableEq, Repr

/-- A raw creation/update payload dictionary.  The outer `Option` is the
per-field "was this key provided" bit, the inner value is the (possibly
explicitly null) field value; format validation of provided values
(EmailStr, PhoneNumber, HttpUrl parsing) is outside the embedded code and is
not modelled. -/
structure FieldsDict where
  email : Option (Option String)
  password : Option (Option String)
  is_active : Option (Option Bool)
  is_superuser : Option (Option Bool)
  is_verified : Option (Option Bool)
  phone_number : Option (Option String)
  display_name : Option (Option String)
  photo_url : Option (Option String)
  custom_claims : Option (Option (List (String × String)))
  deriving DecidableEq, Repr

/-- `CreateFirebaseUserModel.model_validate`: pydantic field validation
(the only field without a default, `photo_url`, must be provided; absent
optional fields take their defaults, `is_active=True`, `is_superuser=False`,
`is_verified=False`), then the `_check_data` after-validator, which rejects
a payload whose validated email and phone number are both `None`. -/
def CreateFirebaseUserModel.model_validate (d : FieldsDict) :
    Except PyExc CreateFirebaseUserModel :=
  match d.photo_url with
  | Option.none => Except.error (PyExc.validationError "Field required: photo_url")
  | some pu =>
    let m : CreateFirebaseUserModel :=
      CreateFirebaseUserModel.mk (d.email.getD Option.none) (d.password.getD Option.none)
        (d.is_active.getD (some true)) (d.is_superuser.getD (some false))
        (d.is_verified.getD (some false)) (d.phone_number.getD Option.none)
        (d.display_name.getD Option.none) pu (d.custom_claims.getD Option.none)
    if m.email = Option.none ∧ m.phone_number = Option.none then
      Except.error (PyExc.validationError "Either email or phone number must be set.")
    else Except.ok m

/-- `UpdateFirebaseUserModel.model_validate`: as for creation but every field
except `photo_url` defaults to `None` and there is no after-validator. -/
def UpdateFirebaseUserModel.model_validate (d : FieldsDict) :
    Except PyExc UpdateFirebaseUserModel :=
  match d.photo_url with
  | Option.none => Except.error (PyExc.validationError "Field required: photo_url")
  | some pu =>
    Except.ok
      (UpdateFirebaseUserModel.mk (d.email.getD Option.none) (d.password.getD Option.none)
        (d.is_active.getD Option.none) (d.is_superuser.getD Option.none)
        (d.is_verified.getD Option.none) (d.phone_number.getD Option.none)
        (d.display_name.getD Option.none) pu (d.custom_claims.getD Option.none))

/-- The `Union[CreateFirebaseUserModel, UpdateFirebaseUserModel]` argument of
`_get_create_update_dict`. -/
def CreateOrUpdate : Type := CreateFirebaseUserModel ⊕ UpdateFirebaseUserModel

/-- Duck-typed attribute access `data.email` on the union. -/
def cuEmail : CreateOrUpdate → Option String
  | Sum.inl c => c.email
  | Sum.inr u => u.email

/-- Duck-typed attribute access `data.password` on the union. -/
def cuPassword : CreateOrUpdate → Option String
  | Sum.inl c => c.password
  | Sum.inr u => u.password

/-- Duck-typed attribute access `data.is_active` on the union. -/
def cuIsActive : CreateOrUpdate → Option Bool
  | Sum.inl c => c.is_active
  | Sum.inr u => u.is_active

/-- Duck-typed attribute access `data.is_verified` on the union. -/
def cuIsVerified : CreateOrUpdate → Option Bool
  | Sum.inl c => c.is_verified
  | Sum.inr u => u.is_verified

/-- Duck-typed attribute access `data.phone_number` on the union. -/
def cuPhoneNumber : CreateOrUpdate → Option String
  | Sum.inl c => c.phone_number
  | Sum.inr u => u.phone_number

/-- Duck-typed attribute access `data.display_name` on the union. -/
def cuDisplayName : CreateOrUpdate → Option String
  | Sum.inl c => c.display_name
  | Sum.inr u => u.display_name

/-- Duck-typed attribute access `data.photo_url` on the union. -/
def cuPhotoUrl : CreateOrUpdate → Option String
  | Sum.inl c => c.photo_url
  | Sum.inr u => u.photo_url

/-- Duck-typed attribute access `data.custom_claims` on the union. -/
def cuCustomClaims : CreateOrUpdate → Option (List (String × String))
  | Sum.inl c => c.custom_claims
  | Sum.inr u => u.custom_claims

/-- `FirebaseUserDatabase._get_create_update_dict`: the provider-bound keyword
mapping.  The inner dict literal is built unconditionally from the eight
attributes (`disabled` is `not data.is_active`), and the outer comprehension
maps each entry through
`value if value is not None and not exclude_none else value`,
both branches of which are `value`. -/
def FirebaseUserDatabase._get_create_update_dict (data : CreateOrUpdate)
    (exclude_none : Bool) : List (String × PyValue) :=
  ([("email", pyOptStr (cuEmail data)),
    ("password", pyOptStr (cuPassword data)),
    ("email_verified", pyOptBool (cuIsVerified data)),
    ("display_name", pyOptStr (cuDisplayName data)),
    ("disabled", PyValue.bool (pyNot (cuIsActive data))),
    ("phone_number", pyOptStr (cuPhoneNumber data)),
    ("photo_url", pyOptStr (cuPhotoUrl data)),
    ("custom_claims", pyOptDict (cuCustomClaims data))]).map
    (fun kv => (kv.1, if kv.2 ≠ PyValue.none ∧ exclude_none = false then kv.2 else kv.2))

/-- `FirebaseUserDatabase.create`: validate the raw dict against the creation
schema (a validation failure propagates before any provider call), then call
`auth.create_user(app=..., **self._get_create_update_dict(data,
exclude_none=True))` and wrap the created record. -/
def FirebaseUserDatabase.create (db : FirebaseUserDatabase) (auth : FirebaseAuthProvider)
    (create_dict : FieldsDict) : Except PyExc FirebaseUser × List ProviderCall :=
  match CreateFirebaseUserModel.model_validate create_dict with
  | Except.error e => (Except.error e, [])
  | Except.ok data =>
    let fields := FirebaseUserDatabase._get_create_update_dict (Sum.inl data) true
    match auth.create_user db._app fields with
    | Except.error e => (Except.error e, [ProviderCall.createUser db._app fields])
    | Except.ok r => (Except.ok (db._map_user r), [ProviderCall.createUser db._app fields])

/-- `FirebaseUserDatabase.update`: validate the raw dict against the update
schema, then call `auth.update_user(uid=str(user.id), app=...,
**self._get_create_update_dict(data))` (the default `exclude_none=True`)
and wrap the updated record. -/
def FirebaseUserDatabase.update (db : FirebaseUserDatabase) (auth : FirebaseAuthProvider)
    (user : FirebaseUser) (update_dict : FieldsDict) :
    Except PyExc FirebaseUser × List ProviderCall :=
  match UpdateFirebaseUserModel.model_validate update_dict with
  | Except.error e => (Except.error e, [])
  | Except.ok data =>
    let fields := FirebaseUserDatabase._get_create_update_dict (Sum.inr data) true
    match auth.update_user (strPy user.id) db._app fields with
    | Except.error e => (Except.error e, [ProviderCall.updateUser (strPy user.id) db._app fields])
    | Except.ok r =>
      (Except.ok (db._map_user r), [ProviderCall.updateUser (strPy user.id) db._app fields])

/-- The `BaseUserManager` collaborator consumed by the token strategy: an id
parser and a user resolver (the concrete `FirebaseUserManager.parse_id` is
`UID(str(value))`). -/
structure UserManager where
  parse_id : String → String
  get : String → Except PyExc (Option FirebaseUser)

/-- `fastapi_users_firebase.id_token.FirebaseIdTokenStrategy`: the app handle
and optional developer claims stored by `__init__`. -/
structure FirebaseIdTokenStrategy where
  _app : Option App
  _developer_claims : Option (List (String × String))

/-- `FirebaseIdTokenStrategy.read_token`: return `None` for a missing token;
otherwise call `auth.verify_id_token(token, app, True)`; on
`RevokedIdTokenError` or `ExpiredIdTokenError` raise
`HTTPException(403, str(exc)) from exc`; on `InvalidIdTokenError` return
`None`; on success resolve `user_manager.get(user_manager.parse_id(
data["uid"]))`. -/
def FirebaseIdTokenStrategy.read_token (s : FirebaseIdTokenStrategy)
    (auth : FirebaseAuthProvider) (user_manager : UserManager) (token : Option String) :
    Except PyExc (Option FirebaseUser) × List ProviderCall :=
  match token with
  | Option.none => (Except.ok Option.none, [])
  | some t =>
    let trace := [ProviderCall.verifyIdToken t s._app true]
    match auth.verify_id_token t s._app true with
    | Except.error e =>
      if isRevokedOrExpired e then
        (Except.error (PyExc.httpException 403 (excStr e) (some e)), trace)
      else if isInvalidIdTokenExc e then (Except.ok Option.none, trace)
      else (Except.error e, trace)
    | Except.ok data =>
      match dictGet data "uid" with
      | Except.error e => (Except.error e, trace)
      | Except.ok uidVal => (user_manager.get (user_manager.parse_id uidVal), trace)

/-- The update model produced by validating the update payload that provides
only an explicitly null `photo_url` (every field `None`). -/
def updAllNone : UpdateFirebaseUserModel :=
  UpdateFirebaseUserModel.mk Option.none Option.none Option.none Option.none Option.none
    Option.none Option.none Option.none Option.none

/-- The raw update dictionary providing only `photo_url: null`. -/
def updAllNoneDict : FieldsDict :=
  FieldsDict.mk Option.none Option.none Option.none Option.none Option.none Option.none
    Option.none (some Option.none) Option.none

/-- C2: the claim says the provider-bound field mapping omits every key whose
value was not provided.  The code does not: the comprehension in
`_get_create_update_dict` returns `value` in both branches of its
conditional, so for the validated update payload with no field provided the
mapping still carries all eight keys, the unset ones mapped to `None` and
`disabled` mapped to `True`. -/
theorem c2_update_dict_keeps_unset_keys :
    UpdateFirebaseUserModel.model_validate updAllNoneDict = Except.ok updAllNone ∧
    FirebaseUserDatabase._get_create_update_dict (Sum.inr updAllNone) true =
      [("email", PyValue.none), ("password", PyValue.none),
       ("email_verified", PyValue.none), ("display_name", PyValue.none),
       ("disabled", PyValue.bool true), ("phone_number", PyValue.none),
       ("photo_url", PyValue.none), ("custom_claims", PyValue.none)] :=
  ⟨rfl, rfl⟩

/-- C6: `store.delete` on an argument that is not a `FirebaseUser` raises a
`TypeError` naming the object, and performs no provider call. -/
theorem c6_delete_non_entity_type_error (db : FirebaseUserDatabase)
    (p : FirebaseAuthProvider) (r : String) :
    db.delete p (PyObject.other r) =
      (Except.error (PyExc.typeError ("Object " ++ r ++ " is not a valid user object.")),
        []) :=
  rfl

/-- C8: `read_token` with no token returns `None` and performs no provider
call at all, in particular no token verification. -/
theorem c8_read_token_none_returns_none (s : FirebaseIdTokenStrategy)
    (p : FirebaseAuthProvider) (m : UserManager) :
    s.read_token p m Option.none = (Except.ok Option.none, []) :=
  rfl

/-- C9: for every provider record, the mapped Entity's `is_verified` is true
exactly when the record's `email_verified` flag is true or its phone number
is present and non-empty. -/
theorem c9_is_verified_iff (r : UserRecord) (app : Option App)
    (f : Option (UserRecord → Bool)) :
    (FirebaseUser.from_record r app f).is_verified = true ↔
      (r.email_verified = true ∨ ∃ s, r.phone_number = some s ∧ s ≠ "") := by
  cases hr : r.phone_number with
  | none => simp [FirebaseUser.from_record, FirebaseUser.is_verified, pyTruthy, hr]
  | some s => simp [FirebaseUser.from_record, FirebaseUser.is_verified, pyTruthy, hr]

/-- C10: every validated update payload in which `is_active` was not provided
(so it validated to `None`) produces a provider-bound mapping that contains
the key `disabled` mapped to `True`, because `disabled` is computed as
`not data.is_active` and Python's `not None` is `True`. -/
theorem c10_unset_is_active_sends_disabled_true (data : UpdateFirebaseUserModel)
    (h : data.is_active = Option.none) :
    ("disabled", PyValue.bool true) ∈
      FirebaseUserDatabase._get_create_update_dict (Sum.inr data) true := by
  simp [FirebaseUserDatabase._get_create_update_dict, ite_self, cuIsActive, h, pyNot]

/-- C10 witness: the all-`None` update payload indeed sends `disabled=True`. -/
theorem c10_unset_is_active_sends_disabled_true_witness :
    ("disabled", PyValue.bool true) ∈
      FirebaseUserDatabase._get_create_update_dict (Sum.inr updAllNone) true :=
  c10_unset_is_active_sends_disabled_true updAllNone rfl

/-- C1: for every id the provider resolves to a user record (the provider
contract: the returned record carries the queried id as its `uid`),
`store.get(id)` returns the mapped Entity and that Entity's `id` is the
stringified queried id. -/
theorem c1_get_roundtrip_id (db : FirebaseUserDatabase) (p : FirebaseAuthProvider)
    (i : String) (r : UserRecord)
    (hres : p.get_user i db._app = Except.ok r) (hid : r.uid = i) :
    (db.get p i).1 = Except.ok (some (db._map_user r)) ∧
      (db._map_user r).id = strPy i := by
  constructor
  · unfold FirebaseUserDatabase.get
    rw [hres]
  · simp [FirebaseUserDatabase._map_user, FirebaseUser.from_record, FirebaseUser.id,
      strPy, hid]

/-- A concrete provider record used by the witnesses. -/
def wRecord : UserRecord :=
  UserRecord.mk "u1" (some "user@example.com") true false Option.none Option.none
    Option.none

/-- A provider on which every call succeeds, resolving to `wRecord`. -/
def wProvider : FirebaseAuthProvider :=
  FirebaseAuthProvider.mk (fun _ _ => Except.ok wRecord) (fun _ _ => Except.ok wRecord)
    (fun _ _ => Except.ok wRecord) (fun _ _ _ => Except.ok wRecord)
    (fun _ => Except.ok ()) (fun _ _ _ => Except.ok [("uid", "u1")])

/-- A store built with no explicit app and no superuser predicate. -/
def wDb : FirebaseUserDatabase := FirebaseUserDatabase.mk Option.none Option.none

/-- C1 witness: fetching `"u1"` from the concrete provider round-trips the
id. -/
theorem c1_get_roundtrip_id_witness :
    (wDb.get wProvider "u1").1 = Except.ok (some (wDb._map_user wRecord)) ∧
      (wDb._map_user wRecord).id = strPy "u1" :=
  c1_get_roundtrip_id wDb wProvider "u1" wRecord rfl rfl

/-- C5: when the provider raises its not-found error for an id and for an
email, `store.get` and `store.get_by_email` both return `None` instead of
propagating the error. -/
theorem c5_not_found_returns_none (db : FirebaseUserDatabase)
    (p : FirebaseAuthProvider) (i email msg1 msg2 : String)
    (h1 : p.get_user i db._app = Except.error (PyExc.userNotFound msg1))
    (h2 : p.get_user_by_email email db._app = Except.error (PyExc.userNotFound msg2)) :
    (db.get p i).1 = Except.ok Option.none ∧
      (db.get_by_email p email).1 = Except.ok Option.none := by
  constructor
  · unfold FirebaseUserDatabase.get
    rw [h1]
    exact rfl
  · unfold FirebaseUserDatabase.get_by_email
    rw [h2]
    exact rfl

/-- A provider whose lookups raise the not-found error. -/
def nfProvider : FirebaseAuthProvider :=
  FirebaseAuthProvider.mk (fun _ _ => Except.error (PyExc.userNotFound "User not found."))
    (fun _ _ => Except.error (PyExc.userNotFound "User not found."))
    (fun _ _ => Except.ok wRecord) (fun _ _ _ => Except.ok wRecord)
    (fun _ => Except.ok ()) (fun _ _ _ => Except.ok [])

/-- C5 witness: the not-found provider makes both lookups return `None`. -/
theorem c5_not_found_returns_none_witness :
    (wDb.get nfProvider "missing").1 = Except.ok Option.none ∧
      (wDb.get_by_email nfProvider "missing@example.com").1 = Except.ok Option.none :=
  c5_not_found_returns_none wDb nfProvider "missing" "missing@example.com"
    "User not found." "User not found." rfl rfl

/-- C3: when token verification raises expired-token or revoked-token,
`read_token` raises `HTTPException(403, str(exc))` with the provider
exception as its cause; when it raises invalid-token, `read_token` returns
`None` without raising. -/
theorem c3_read_token_error_taxonomy (s : FirebaseIdTokenStrategy)
    (p : FirebaseAuthProvider) (m : UserManager) (t msg : String) :
    (p.verify_id_token t s._app true = Except.error (PyExc.expiredIdToken msg) →
      s.read_token p m (some t) =
        (Except.error (PyExc.httpException 403 msg (some (PyExc.expiredIdToken msg))),
          [ProviderCall.verifyIdToken t s._app true])) ∧
    (p.verify_id_token t s._app true = Except.error (PyExc.revokedIdToken msg) →
      s.read_token p m (some t) =
        (Except.error (PyExc.httpException 403 msg (some (PyExc.revokedIdToken msg))),
          [ProviderCall.verifyIdToken t s._app true])) ∧
    (p.verify_id_token t s._app true = Except.error (PyExc.invalidIdToken msg) →
      s.read_token p m (some t) =
        (Except.ok Option.none, [ProviderCall.verifyIdToken t s._app true])) := by
  refine ⟨fun h => ?_, fun h => ?_, fun h => ?_⟩ <;>
    · simp only [FirebaseIdTokenStrategy.read_token, h]
      exact rfl

/-- A strategy built with no explicit app and no developer claims. -/
def wStrategy : FirebaseIdTokenStrategy :=
  FirebaseIdTokenStrategy.mk Option.none Option.none

/-- A manager whose id parser is `str` and whose lookup finds no user. -/
def wManager : UserManager := UserManager.mk strPy (fun _ => Except.ok Option.none)

/-- A provider whose token verification raises the expired-token error. -/
def expProvider : FirebaseAuthProvider :=
  FirebaseAuthProvider.mk (fun _ _ => Except.ok wRecord) (fun _ _ => Except.ok wRecord)
    (fun _ _ => Except.ok wRecord) (fun _ _ _ => Except.ok wRecord)
    (fun _ => Except.ok ()) (fun _ _ _ => Except.error (PyExc.expiredIdToken "Id token expired."))

/-- A provider whose token verification raises the revoked-token error. -/
def revProvider : FirebaseAuthProvider :=
  FirebaseAuthProvider.mk (fun _ _ => Except.ok wRecord) (fun _ _ => Except.ok wRecord)
    (fun _ _ => Except.ok wRecord) (fun _ _ _ => Except.ok wRecord)
    (fun _ => Except.ok ()) (fun _ _ _ => Except.error (PyExc.revokedIdToken "Id token revoked."))

/-- A provider whose token verification raises the invalid-token error. -/
def invProvider : FirebaseAuthProvider :=
  FirebaseAuthProvider.mk (fun _ _ => Except.ok wRecord) (fun _ _ => Except.ok wRecord)
    (fun _ _ => Except.ok wRecord) (fun _ _ _ => Except.ok wRecord)
    (fun _ => Except.ok ()) (fun _ _ _ => Except.error (PyExc.invalidIdToken "Token is invalid"))

/-- C3 witness: the three provider error modes produce the forbidden failure
with preserved cause (expired, revoked) and the silent `None` (invalid). -/
theorem c3_read_token_error_taxonomy_witness :
    wStrategy.read_token expProvider wManager (some "tok") =
      (Except.error (PyExc.httpException 403 "Id token expired."
          (some (PyExc.expiredIdToken "Id token expired."))),
        [ProviderCall.verifyIdToken "tok" wStrategy._app true]) ∧
    wStrategy.read_token revProvider wManager (some "tok") =
      (Except.error (PyExc.httpException 403 "Id token revoked."
          (some (PyExc.revokedIdToken "Id token revoked."))),
        [ProviderCall.verifyIdToken "tok" wStrategy._app true]) ∧
    wStrategy.read_token invProvider wManager (some "tok") =
      (Except.ok Option.none, [ProviderCall.verifyIdToken "tok" wStrategy._app true]) :=
  ⟨(c3_read_token_error_taxonomy wStrategy expProvider wManager "tok" "Id token expired.").1 rfl,
   (c3_read_token_error_taxonomy wStrategy revProvider wManager "tok" "Id token revoked.").2.1 rfl,
   (c3_read_token_error_taxonomy wStrategy invProvider wManager "tok" "Token is invalid").2.2 rfl⟩

/-- C7: when verification of a present token succeeds with a claims mapping
whose subject id is `u`, `read_token` returns exactly
`manager.get(manager.parse_id(u))`. -/
theorem c7_read_token_resolves_subject (s : FirebaseIdTokenStrategy)
    (p : FirebaseAuthProvider) (m : UserManager) (t : String)
    (claims : List (String × String)) (u : String)
    (hv : p.verify_id_token t s._app true = Except.ok claims)
    (hu : dictGet claims "uid" = Except.ok u) :
    (s.read_token p m (some t)).1 = m.get (m.parse_id u) := by
  simp only [FirebaseIdTokenStrategy.read_token, hv, hu]

/-- C7 witness: a verification yielding claims with uid `"u1"` resolves
through the manager. -/
theorem c7_read_token_resolves_subject_witness :
    (wStrategy.read_token wProvider wManager (some "tok")).1 =
      wManager.get (wManager.parse_id "u1") :=
  c7_read_token_resolves_subject wStrategy wProvider wManager "tok"
    [("uid", "u1")] "u1" rfl rfl

/-- The creation payload carrying a phone number but no email and no
`photo_url` key. -/
def phoneOnlyDict : FieldsDict :=
  FieldsDict.mk Option.none Option.none Option.none Option.none Option.none
    (some (some "+15551234567")) Option.none Option.none Option.none

/-- C4 counterexample: the claim says a creation payload carrying a phone
number but no email passes validation; on the code this payload is rejected,
because `photo_url` is declared `Optional[HttpUrl]` with no default and is
therefore a required (though nullable) key. -/
theorem c4_phone_only_payload_rejected :
    CreateFirebaseUserModel.model_validate phoneOnlyDict =
      Except.error (PyExc.validationError "Field required: photo_url") :=
  rfl

/-- C4 (amended): validation of a creation payload fails exactly when the
`photo_url` key is absent or both the email and the phone number validate to
`None`; any validation failure is raised by `store.create` before any
provider call. -/
theorem c4_create_validation_failure_iff (d : FieldsDict) :
    ((∃ e, CreateFirebaseUserModel.model_validate d = Except.error e) ↔
      (d.photo_url = Option.none ∨
        (d.email.getD Option.none = Option.none ∧
          d.phone_number.getD Option.none = Option.none))) ∧
    (∀ (db : FirebaseUserDatabase) (p : FirebaseAuthProvider) (e : PyExc),
      CreateFirebaseUserModel.model_validate d = Except.error e →
        db.create p d = (Except.error e, [])) := by
  constructor
  · cases hp : d.photo_url with
    | none =>
      constructor
      · intro _
        exact Or.inl rfl
      · intro _
        exact ⟨PyExc.validationError "Field required: photo_url", by
          unfold CreateFirebaseUserModel.model_validate
          rw [hp]⟩
    | some pu =>
      by_cases hc : d.email.getD Option.none = Option.none ∧
          d.phone_number.getD Option.none = Option.none
      · constructor
        · intro _
          exact Or.inr hc
        · intro _
          refine ⟨PyExc.validationError "Either email or phone number must be set.", ?_⟩
          simp only [CreateFirebaseUserModel.model_validate, hp]
          rw [if_pos hc]
      · constructor
        · rintro ⟨e, he⟩
          simp only [CreateFirebaseUserModel.model_validate, hp] at he
          rw [if_neg hc] at he
          simp at he
        · intro h
          rcases h with h | h
          · exact Option.noConfusion h
          · exact absurd h hc
  · intro db p e he
    unfold FirebaseUserDatabase.create
    rw [he]

/-- C4 witness: the phone-only payload is rejected, and `store.create`
propagates the validation failure without any provider call. -/
theorem c4_create_validation_failure_iff_witness :
    (∃ e, CreateFirebaseUserModel.model_validate phoneOnlyDict = Except.error e) ∧
    wDb.create wProvider phoneOnlyDict =
      (Except.error (PyExc.validationError "Field required: photo_url"), []) :=
  ⟨(c4_create_validation_failure_iff phoneOnlyDict).1.mpr (Or.inl rfl),
   (c4_create_validation_failure_iff phoneOnlyDict).2 wDb wProvider
     (PyExc.validationError "Field required: photo_url") rfl⟩
